import Mathlib

/-!
Verification of the signature-workflow core of the backend-docusign repository.

The definitions below are a shallow embedding of the JavaScript source:
Mongoose documents become Lean structures, Mongo timestamps become natural
numbers (milliseconds since the epoch), string enums stay strings, optional
fields become `Option`, and the effectful controller functions become pure
state-passing functions.  In the controller file several functions are
assigned to `exports` more than once; following CommonJS semantics the last
assignment wins, and the embedding follows the effective (last) version of
each function.
-/

namespace BackendDocusign

/-! ## Generic list-update machinery

`Signature.updateOne` in Mongo and the JavaScript pattern
`array.find(p)` followed by in-place mutation both update the first element
of a sequence satisfying a predicate; `updateFirst` captures that. -/

/-- Update the first element satisfying `p` (Mongo `updateOne` / JS
`find`-then-mutate). -/
def updateFirst {α : Type} (p : α → Bool) (f : α → α) : List α → List α
  | [] => []
  | x :: xs => if p x then f x :: xs else x :: updateFirst p f xs

/-! ## Data model (models/Document.js and models/Signature.js) -/

/-- One entry of the embedded audit-trail arrays (`historique`). -/
structure HistEntry where
  action : String
  utilisateur : Option Nat
  details : Option String
deriving Repr, DecidableEq

/-- The provider-correlation subdocument of a signature record
(`dropboxSign` in the signature schema); only the fields the workflow
logic reads are kept. -/
structure DropboxSignData where
  signerId : Option String
  statusCode : Option String
deriving Repr, DecidableEq

/-- One `workflowSignature` entry of a document.  `utilisateur` is the
signer's id; `utilisateurEmail` is the signer's email when the reference
has been populated, `none` otherwise (an unpopulated Mongoose reference
has no `email` property). -/
structure WorkflowEntry where
  utilisateur : Option Nat
  utilisateurEmail : Option String
  role : String
  ordre : Nat
  obligatoire : Bool
  statut : String
  dateSignature : Option Nat
  commentaire : Option String
deriving Repr, DecidableEq

/-- A signature record (models/Signature.js).  Records are keyed by the
(document, signataire) pair, which the schema declares unique. -/
structure SignatureRecord where
  document : Nat
  signataire : Nat
  statut : String
  dropboxSign : DropboxSignData
  dateSignature : Option Nat
  dateExpiration : Option Nat
  ordreSignature : Nat
  motifRejet : Option String
  commentaireRejet : Option String
  dateRejet : Option Nat
  adresseIP : Option String
  userAgent : Option String
  historique : List HistEntry
  creeParUtilisateur : Nat
deriving Repr, DecidableEq

/-- A document (models/Document.js); `dropboxSignatureRequestId` embeds
`dropboxSign.signatureRequestId`. -/
structure Document where
  id : Nat
  titre : String
  statut : String
  workflowSignature : List WorkflowEntry
  creeParUtilisateur : Nat
  proprietaire : Option Nat
  dateLimiteSignature : Option Nat
  dropboxSignatureRequestId : Option String
  historique : List HistEntry
deriving Repr, DecidableEq

/-- The authenticated caller (`req.user`). -/
structure User where
  id : Nat
  role : String
  prenom : String
  nom : String
  email : String
deriving Repr, DecidableEq

/-- JavaScript truthiness of an optional string (`undefined`, `null` and
`""` are falsy). -/
def strTruthy : Option String → Bool
  | none => false
  | some s => !s.isEmpty

/-! ## Model instance methods -/

/-- `documentSchema.methods.ajouterHistorique`: append-only audit trail. -/
def Document.ajouterHistorique (d : Document) (action : String)
    (utilisateur : Option Nat) (details : Option String) : Document :=
  { d with historique := d.historique ++ [⟨action, utilisateur, details⟩] }

/-- `signatureSchema.methods.ajouterHistorique`. -/
def SignatureRecord.ajouterHistorique (s : SignatureRecord) (action : String)
    (utilisateur : Option Nat) (details : Option String) : SignatureRecord :=
  { s with historique := s.historique ++ [⟨action, utilisateur, details⟩] }

/-- `documentSchema.methods.estCompletementSigne`: the mandatory workflow
entries are non-empty and all of them have status `signe`. -/
def Document.estCompletementSigne (d : Document) : Bool :=
  let signatairesObligatoires := d.workflowSignature.filter (fun w => w.obligatoire)
  let signaturesCompletes := signatairesObligatoires.filter (fun w => w.statut == "signe")
  decide (signatairesObligatoires.length > 0) &&
    signaturesCompletes.length == signatairesObligatoires.length

/-- `documentSchema.methods.peutEtreModifiePar`. -/
def Document.peutEtreModifiePar (d : Document) (u : User) : Bool :=
  d.creeParUtilisateur == u.id || u.role == "administrateur" ||
    (d.statut == "brouillon" &&
      (match d.proprietaire with
       | some p => p == u.id
       | none => false))

/-- `signatureSchema.methods.peutEtreSigne`:
`statut === "en_attente" && (!dateExpiration || dateExpiration > now)`. -/
def SignatureRecord.peutEtreSigne (s : SignatureRecord) (now : Nat) : Bool :=
  s.statut == "en_attente" &&
    (match s.dateExpiration with
     | none => true
     | some e => decide (now < e))

/-- `signatureSchema.methods.estExpire`:
`dateExpiration && dateExpiration <= now` (falsy when no expiration is set). -/
def SignatureRecord.estExpire (s : SignatureRecord) (now : Nat) : Bool :=
  match s.dateExpiration with
  | none => false
  | some e => decide (e ≤ now)

/-- `signatureSchema.statics.nettoyerSignaturesExpirees`, per record: the
`updateMany` filter requires `statut: "en_attente"` and
`dateExpiration: \x7b $lte: now \x7d` (a missing `dateExpiration` does not
match `$lte`). -/
def nettoyerUneSignature (now : Nat) (s : SignatureRecord) : SignatureRecord :=
  if s.statut == "en_attente" &&
      (match s.dateExpiration with
       | some e => decide (e ≤ now)
       | none => false)
  then { s with statut := "expire" }
  else s

/-- The whole expiration sweep over the signature store. -/
def nettoyerSignaturesExpirees (now : Nat) (store : List SignatureRecord) :
    List SignatureRecord :=
  store.map (nettoyerUneSignature now)

/-! ## Provider webhook events (transient payloads)

The shapes mirror the Dropbox Sign webhook payload as the controller reads
it: `eventData.event`, `eventData.signature_request` and the per-signer
entries of `signature_request.signatures`. -/

/-- One per-signer outcome inside a provider event. -/
structure EventSignature where
  signature_id : Option String
  signer_email_address : Option String
  status_code : Option String
  signed_at : Option Nat
  decline_reason : Option String
deriving Repr, DecidableEq

/-- `eventData.signature_request`. -/
structure SignatureRequestData where
  signature_request_id : Option String
  signatures : List EventSignature
deriving Repr, DecidableEq

/-- `eventData.event`. -/
structure EventInfo where
  event_type : String
  event_time : Option String
  event_hash : Option String
deriving Repr, DecidableEq

/-- A parsed webhook event payload. -/
structure EventData where
  event : Option EventInfo
  signature_request : Option SignatureRequestData
deriving Repr, DecidableEq

/-- The persistent store the reconciliation engine reads and writes. -/
structure Store where
  documents : List Document
  signatures : List SignatureRecord
deriving Repr, DecidableEq

/-- JavaScript `a || b` on an optional string with a string default. -/
def jsOr (o : Option String) (d : String) : String :=
  match o with
  | some s => if s.isEmpty then d else s
  | none => d

/-- A Mongo equality query on an optional field: an absent query value
matches an absent field. -/
def optIdMatch (q : Option String) (field : Option String) : Bool :=
  match q, field with
  | some a, some b => a == b
  | none, none => true
  | _, _ => false

/-- One reconciliation pass: apply, left to right, one guarded
first-match update per event entry (the `for ... of` loop over
`signatureRequest.signatures` in the controller). -/
def runUpdates {α ι : Type} (guard : ι → Bool) (p : ι → α → Bool) (f : ι → α → α)
    (l : List α) (is : List ι) : List α :=
  is.foldl (fun acc i => if guard i then updateFirst (p i) (f i) acc else acc) l

/-- The loop guard of `synchroniserSignature`:
`sig.status_code === "signed"`. -/
def sigEventGuard (sig : EventSignature) : Bool :=
  sig.status_code == some "signed"

/-- The `Signature.updateOne` filter of `synchroniserSignature`:
`\x7b document: document._id, "dropboxSign.signerId": sig.signature_id \x7d`. -/
def sigRecMatch (docId : Nat) (sig : EventSignature) (r : SignatureRecord) : Bool :=
  r.document == docId && optIdMatch sig.signature_id r.dropboxSign.signerId

/-- The `$set` of `synchroniserSignature` on a signature record. -/
def sigRecSet (sig : EventSignature) (r : SignatureRecord) : SignatureRecord :=
  { r with
      statut := "signe",
      dateSignature := sig.signed_at.map (fun t => t * 1000),
      dropboxSign := { r.dropboxSign with statusCode := some "signed" } }

/-- The workflow lookup of `synchroniserSignature`:
`w.utilisateur && sig.signer_email_address &&
w.utilisateur.email === sig.signer_email_address`. -/
def wfEmailMatch (sig : EventSignature) (w : WorkflowEntry) : Bool :=
  w.utilisateur.isSome && strTruthy sig.signer_email_address &&
    w.utilisateurEmail == sig.signer_email_address

/-- The workflow-entry mutation of `synchroniserSignature`. -/
def wfSet (sig : EventSignature) (w : WorkflowEntry) : WorkflowEntry :=
  { w with
      statut := "signe",
      dateSignature := sig.signed_at.map (fun t => t * 1000) }

/-- `exports.synchroniserSignature` (effective version, controller lines
1761-1816): for each event entry with provider status "signed", update the
first matching signature record and the first matching workflow entry;
then set the document status from the event entries alone
(`signe` when every reported entry is signed, else `partiellement_signe`)
and save.  The record store and the document workflow are updated by
independent first-match writes, so the loop is embedded as one pass over
each. -/
def synchroniserSignature (document : Document) (sigStore : List SignatureRecord)
    (signatureRequest : SignatureRequestData) : Document × List SignatureRecord :=
  ({ document with
      workflowSignature := runUpdates sigEventGuard wfEmailMatch wfSet
        document.workflowSignature signatureRequest.signatures,
      statut :=
        if signatureRequest.signatures.all (fun s => s.status_code == some "signed")
        then "signe" else "partiellement_signe" },
   runUpdates sigEventGuard (sigRecMatch document.id) sigRecSet
     sigStore signatureRequest.signatures)

/-- `exports.synchroniserDocumentComplet` (effective version, controller
lines 2030-2037): set the document status to `signe` and save; the
subsequent signed-file download does not touch the document's workflow or
signature records. -/
def synchroniserDocumentComplet (document : Document)
    (_signatureRequest : SignatureRequestData) : Document :=
  { document with statut := "signe" }

/-- `exports.synchroniserRejet` (effective version, controller lines
2039-2064): find the declined event entry, update the first matching
signature record and mark the document `rejete`. -/
def synchroniserRejet (document : Document) (sigStore : List SignatureRecord)
    (signatureRequest : SignatureRequestData) (now : Nat) :
    Document × List SignatureRecord :=
  match signatureRequest.signatures.find? (fun s => s.status_code == some "declined") with
  | none => (document, sigStore)
  | some signatureRejetee =>
    ({ document with statut := "rejete" },
     updateFirst
       (fun r => r.document == document.id &&
         optIdMatch signatureRejetee.signature_id r.dropboxSign.signerId)
       (fun r => { r with
           statut := "rejete",
           dateRejet := some now,
           motifRejet := some (jsOr signatureRejetee.decline_reason "Non spécifié") })
       sigStore)

/-- `exports.synchroniserAvecDropboxSign` (effective version, controller
lines 1672-1737): resolve the document by correlation id and dispatch on
the event type; unknown ids and unknown types are ignored. -/
def synchroniserAvecDropboxSign (st : Store) (eventData : EventData) (now : Nat) :
    Store :=
  match eventData.event with
  | none => st
  | some event =>
    if event.event_type == "callback_test" then st
    else
      match eventData.signature_request with
      | none => st
      | some signatureRequest =>
        if !(strTruthy signatureRequest.signature_request_id) then st
        else
          match st.documents.find? (fun d =>
            d.dropboxSignatureRequestId == signatureRequest.signature_request_id) with
          | none => st
          | some document =>
            if event.event_type == "signature_request_sent" ||
                event.event_type == "signature_request_viewed" then st
            else if event.event_type == "signature_request_signed" then
              let res := synchroniserSignature document st.signatures signatureRequest
              { documents := updateFirst (fun d => d.id == document.id)
                  (fun _ => res.1) st.documents,
                signatures := res.2 }
            else if event.event_type == "signature_request_all_signed" then
              { st with
                  documents := updateFirst (fun d => d.id == document.id)
                    (fun _ => synchroniserDocumentComplet document signatureRequest)
                    st.documents }
            else if event.event_type == "signature_request_declined" then
              let res := synchroniserRejet document st.signatures signatureRequest now
              { documents := updateFirst (fun d => d.id == document.id)
                  (fun _ => res.1) st.documents,
                signatures := res.2 }
            else st

/-- `dropboxSignService.traiterEvenementWebhook`: destructuring
`eventData.event` throws (caught, `success: false`) when the event
envelope is missing; every branch of the event-type switch, the default
arm included, returns `success: true`. -/
def traiterEvenementWebhook (eventData : EventData) : Bool :=
  match eventData.event with
  | none => false
  | some _ => true

/-- The webhook request body as the handler reads it (`req.body.json`,
JSON-parsed). -/
structure WebhookRequest where
  json : Option EventData
deriving Repr, DecidableEq

/-- The HTTP answer of the webhook handler. -/
structure WebhookResponse where
  status : Nat
  success : Bool
deriving Repr, DecidableEq

/-- `exports.webhookDropboxSign` (effective version, controller lines
1573-1622).  The source hardcodes
`const isValidSignature = true` under the comment "TEMPORAIRE : accepter
tous les webhooks pour tester": `verifierSignatureWebhook` is never
called, so the `401` branch below is dead code and every structurally
valid event is processed. -/
def webhookDropboxSign (req : WebhookRequest) (st : Store) (now : Nat) :
    WebhookResponse × Store :=
  let isValidSignature := true
  if !isValidSignature then (⟨401, false⟩, st)
  else
    match req.json with
    | none => (⟨400, false⟩, st)
    | some eventData =>
      if traiterEvenementWebhook eventData then
        (⟨200, true⟩, synchroniserAvecDropboxSign st eventData now)
      else (⟨500, false⟩, st)

/-- The raw webhook request (`req.body.json` as the raw string the
verification hashes). -/
structure RawWebhookRequest where
  json : Option String
deriving Repr, DecidableEq

/-- `dropboxSignService.verifierSignatureWebhook` (effective version,
service lines 489-539).  `sha256hex` abstracts
`crypto.createHash("sha256")` and `parseJson` abstracts `JSON.parse`
(returning `none` when parsing throws, which the source catches and turns
into `false`). -/
def verifierSignatureWebhook (sha256hex : String → String)
    (parseJson : String → Option EventData) (apiKey : Option String)
    (req : RawWebhookRequest) : Bool :=
  match req.json with
  | none => false
  | some eventJson =>
    match parseJson eventJson with
    | none => false
    | some eventData =>
      match eventData.event with
      | none => false
      | some event =>
        if !(strTruthy event.event_time) || !(strTruthy event.event_hash) then false
        else if !(strTruthy apiKey) then false
        else
          let eventTime := event.event_time.getD ""
          let eventHash := event.event_hash.getD ""
          let key := apiKey.getD ""
          let combinations := [eventTime ++ key, key ++ eventTime,
            eventJson ++ key, key ++ eventJson]
          combinations.any (fun combo => sha256hex combo == eventHash)

/-! ## Controller operations: local sign, local reject, dispatch -/

/-- The outcome of the Dropbox status check inside `signerDocument`:
the provider already reports the signer as signed (with its epoch-seconds
timestamp), reports it as not yet signed, or the whole check threw /
failed (status fetch error, signer not found on the provider side). -/
inductive DropboxStatut where
  | signedAt (t : Nat)
  | notSigned
  | indisponible
deriving Repr, DecidableEq

/-- The observable result of `signerDocument`: HTTP status, whether the
"synchronisation en cours" warning was attached (Dropbox-error path), and
the record / document as persisted. -/
structure SignerOutcome where
  status : Nat
  warning : Bool
  sig : SignatureRecord
  doc : Document
deriving Repr, DecidableEq

/-- `exports.signerDocument` (effective version, controller lines
920-1100).  Guards: the caller must be the designated signer, then
`peutEtreSigne()` must hold.  On the Dropbox-error path (`indisponible`)
the record is signed locally with a warning and the document is left
untouched; otherwise the record and the matching workflow entry are
signed, and the document status is recomputed from
`estCompletementSigne()`. -/
def signerDocument (sig : SignatureRecord) (doc : Document) (user : User)
    (commentaire _geolocalisation reqIp userAgent : Option String)
    (now : Nat) (dropbox : DropboxStatut) : SignerOutcome :=
  if !(sig.signataire == user.id) then ⟨403, false, sig, doc⟩
  else if !(sig.peutEtreSigne now) then ⟨400, false, sig, doc⟩
  else
    match dropbox with
    | .indisponible =>
      let sig' : SignatureRecord :=
        { sig with
            statut := "signe",
            dateSignature := some now,
            adresseIP := reqIp,
            userAgent := userAgent }
      ⟨200, true,
        sig'.ajouterHistorique "signature" (some user.id)
          (some "Document signé (sync en attente)"),
        doc⟩
    | db =>
      let dateSig : Option Nat :=
        match db with
        | .signedAt t => some (t * 1000)
        | _ => some now
      let sig' : SignatureRecord :=
        { sig with
            statut := "signe",
            dateSignature := dateSig,
            dropboxSign := { sig.dropboxSign with statusCode := some "signed" },
            adresseIP := reqIp,
            userAgent := userAgent }
      let sig' := sig'.ajouterHistorique "signature" (some user.id)
        (some "Document signé électroniquement")
      let doc₁ : Document :=
        { doc with
            workflowSignature := updateFirst
              (fun w => w.utilisateur == some sig.signataire)
              (fun w => { w with
                  statut := "signe",
                  dateSignature := sig'.dateSignature,
                  commentaire := commentaire })
              doc.workflowSignature }
      let doc₂ : Document :=
        { doc₁ with
            statut := if doc₁.estCompletementSigne then "signe"
              else "partiellement_signe" }
      ⟨200, false, sig',
        doc₂.ajouterHistorique "signature" (some user.id)
          (some ("Document signé par " ++ user.prenom ++ " " ++ user.nom))⟩

/-- The observable result of `rejeterSignature`. -/
structure RejetOutcome where
  status : Nat
  sig : SignatureRecord
  doc : Document
deriving Repr, DecidableEq

/-- `exports.rejeterSignature` (effective version, controller lines
1105-1202).  Guards, in source order: a rejection reason must be given,
the caller must be the designated signer, and the record status must be
exactly `en_attente` (no expiration check).  On success: record set to
`rejete` with reason, comment and timestamp, history entries appended,
matching workflow entry and document set to `rejete`. -/
def rejeterSignature (sig : SignatureRecord) (doc : Document) (user : User)
    (motifRejet commentaire : Option String) (now : Nat) : RejetOutcome :=
  if !(strTruthy motifRejet) then ⟨400, sig, doc⟩
  else if !(sig.signataire == user.id) then ⟨403, sig, doc⟩
  else if !(sig.statut == "en_attente") then ⟨400, sig, doc⟩
  else
    let sig' : SignatureRecord :=
      { sig with
          statut := "rejete",
          motifRejet := motifRejet,
          commentaireRejet := commentaire,
          dateRejet := some now }
    let sig' := sig'.ajouterHistorique "rejet" (some user.id)
      (some "Signature rejetée")
    let doc₁ : Document :=
      { doc with
          statut := "rejete",
          workflowSignature := updateFirst
            (fun w => w.utilisateur == some sig.signataire)
            (fun w => { w with
                statut := "rejete",
                commentaire := some (motifRejet.getD "" ++ ": " ++ commentaire.getD "") })
            doc.workflowSignature }
    ⟨200, sig',
      doc₁.ajouterHistorique "rejet" (some user.id)
        (some ("Document rejeté par " ++ user.prenom ++ " " ++ user.nom ++
          ": " ++ motifRejet.getD ""))⟩

/-- The result of the external `creerDemandeSignature` gateway call as
seen by `envoyerPourSignature`. -/
inductive GatewayResult where
  | succes (signatureRequestId : String)
  | echec (error : String)
  | exception
deriving Repr, DecidableEq

/-- Saving a new signature record under the unique index
`signatureSchema.index(\x7b document: 1, signataire: 1 \x7d,
\x7b unique: true \x7d)` (models/Signature.js line 198): the insert is
refused when a record for the same (document, signataire) pair exists. -/
def insertSignature (store : List SignatureRecord) (s : SignatureRecord) :
    Except String (List SignatureRecord) :=
  if store.any (fun r => r.document == s.document && r.signataire == s.signataire)
  then .error "E11000 duplicate key"
  else .ok (store ++ [s])

/-- The record built by the creation loop of `envoyerPourSignature`. -/
def nouvelleSignatureRecord (docId : Nat) (dateLimite : Option Nat) (userId : Nat)
    (w : WorkflowEntry) (signataireId : Nat) : SignatureRecord :=
  { document := docId,
    signataire := signataireId,
    statut := "en_attente",
    dropboxSign := ⟨none, none⟩,
    dateSignature := none,
    dateExpiration := dateLimite,
    ordreSignature := w.ordre,
    motifRejet := none,
    commentaireRejet := none,
    dateRejet := none,
    adresseIP := none,
    userAgent := none,
    historique := [⟨"creation", some userId,
      some "Signature créée lors de l'envoi pour signature"⟩],
    creeParUtilisateur := userId }

/-- The record-creation loop of `envoyerPourSignature`: one save per
workflow entry, in order.  A throw mid-loop (missing user reference, or a
duplicate-key rejection from the unique index) aborts the request, but
the records saved before it persist (`error` carries the store so far). -/
def creerSignaturesLocales (docId : Nat) (dateLimite : Option Nat) (userId : Nat) :
    List WorkflowEntry → List SignatureRecord →
      Except (List SignatureRecord) (List SignatureRecord)
  | [], store => .ok store
  | w :: ws, store =>
    match w.utilisateur with
    | none => .error store
    | some uid =>
      match insertSignature store (nouvelleSignatureRecord docId dateLimite userId w uid) with
      | .error _ => .error store
      | .ok store' => creerSignaturesLocales docId dateLimite userId ws store'

/-- The observable result of `envoyerPourSignature`. -/
structure EnvoiOutcome where
  status : Nat
  doc : Document
  sigStore : List SignatureRecord
deriving Repr, DecidableEq

/-- `exports.envoyerPourSignature` (documentController, lines 438-699).
Guards in source order: permission, non-empty workflow, every entry
resolved to a user, draft status.  Signature records are created first
(unless records for the document already exist); the Dropbox Sign attempt
follows and every one of its outcomes falls through (the success branch
is an empty placeholder, a failure result is logged and ignored, a thrown
error is caught and ignored); finally the document is moved to
`en_attente_signature` with a history entry. -/
def envoyerPourSignature (doc : Document) (sigStore : List SignatureRecord)
    (user : User) (gateway : GatewayResult) (apiKeyPresent : Bool) : EnvoiOutcome :=
  if !(doc.peutEtreModifiePar user) then ⟨403, doc, sigStore⟩
  else if doc.workflowSignature.isEmpty then ⟨400, doc, sigStore⟩
  else if doc.workflowSignature.any (fun w => w.utilisateur.isNone) then ⟨400, doc, sigStore⟩
  else if !(doc.statut == "brouillon") then ⟨400, doc, sigStore⟩
  else
    let signaturesExistantes := sigStore.filter (fun s => s.document == doc.id)
    match (if signaturesExistantes.isEmpty
           then creerSignaturesLocales doc.id doc.dateLimiteSignature user.id
             doc.workflowSignature sigStore
           else .ok sigStore) with
    | .error partiel => ⟨500, doc, partiel⟩
    | .ok store' =>
      let _dropbox :=
        if apiKeyPresent then
          match gateway with
          | .succes _ => ()
          | .echec _ => ()
          | .exception => ()
        else ()
      let nb := if signaturesExistantes.isEmpty
                then doc.workflowSignature.length
                else signaturesExistantes.length
      let doc' : Document := { doc with statut := "en_attente_signature" }
      ⟨200,
        doc'.ajouterHistorique "signature" (some user.id)
          (some ("Document envoyé pour signature à " ++ toString nb ++ " signataire(s)")),
        store'⟩

/-! ## Sample data used by witness theorems -/

/-- A workflow entry awaiting signature. -/
def wfEnAttente : WorkflowEntry :=
  ⟨some 1, some "a@x.fr", "signataire", 1, true, "en_attente", none, none⟩

/-- A signed mandatory workflow entry. -/
def wfSigne : WorkflowEntry :=
  ⟨some 2, some "b@x.fr", "signataire", 2, true, "signe", some 10, none⟩

/-- A non-mandatory entry (an observer slot). -/
def wfObservateur : WorkflowEntry :=
  ⟨some 3, some "c@x.fr", "observateur", 3, false, "en_attente", none, none⟩

/-- Sample document with one pending mandatory entry. -/
def docW : Document :=
  ⟨7, "PV", "en_attente_signature", [wfEnAttente, wfObservateur], 9, none,
   some 1000, some "SR1", []⟩

/-- Same mandatory entries as `docW` but a different observer status. -/
def docW2 : Document :=
  ⟨7, "PV", "en_attente_signature",
   [wfEnAttente, { wfObservateur with statut := "signe" }], 9, none,
   some 1000, some "SR1", []⟩

/-- A pending signature record expiring at time 5. -/
def sigW : SignatureRecord :=
  ⟨7, 1, "en_attente", ⟨some "S1", none⟩, none, some 5, 1, none, none, none,
   none, none, [], 9⟩

/-- The signer of `sigW` / `wfEnAttente`. -/
def user1 : User := ⟨1, "enseignant", "Ana", "Blanc", "a@x.fr"⟩

/-- The creator of the sample documents. -/
def userCreateur : User := ⟨9, "enseignant", "Paul", "Q", "p@x.fr"⟩

/-- A record already in a terminal state (`rejete`). -/
def sigTerminaleRejetee : SignatureRecord :=
  ⟨7, 1, "rejete", ⟨some "S1", none⟩, none, none, 1, some "motif", none,
   some 3, none, none, [], 9⟩

/-- A record belonging to document 8. -/
def sigDoc8 : SignatureRecord :=
  ⟨8, 1, "en_attente", ⟨none, none⟩, none, none, 1, none, none, none,
   none, none, [], 9⟩

/-- A draft document ready for dispatch. -/
def docBrouillon : Document :=
  ⟨8, "Note", "brouillon", [wfEnAttente, wfSigne], 9, none, some 1000, none, []⟩

/-- A provider event entry reporting `wfEnAttente`'s signer as signed. -/
def evSig1 : EventSignature :=
  ⟨some "S1", some "a@x.fr", some "signed", some 5, none⟩

/-- A signed-event payload for request SR1. -/
def srData1 : SignatureRequestData := ⟨some "SR1", [evSig1]⟩

/-- An `all_signed` event for request SR1. -/
def evAllSigned : EventData :=
  ⟨some ⟨"signature_request_all_signed", some "171", some "hash"⟩,
   some ⟨some "SR1", []⟩⟩

/-- An inbound event whose envelope carries no `event_time` and no
`event_hash`, so that any authenticity verification fails on it. -/
def evDataNonAuth : EventData :=
  ⟨some ⟨"signature_request_all_signed", none, none⟩, some ⟨some "SR1", []⟩⟩

/-- The raw body of that event. -/
def rawReqNonAuth : RawWebhookRequest := ⟨some "raw-event-json"⟩

/-- A concrete stand-in for the SHA-256 hex digest. -/
def sha0 : String → String := fun s => s ++ "#sha"

/-- A concrete stand-in for `JSON.parse` on the raw body above. -/
def parse0 : String → Option EventData := fun _ => some evDataNonAuth

/-- A store holding `docW` (correlation id SR1) and `sigW`. -/
def storeW : Store := ⟨[docW], [sigW]⟩

/-! ## Claim C7 -/

/-- Claim C7: `estCompletementSigne()` returns true iff the set of
workflow entries with `obligatoire = true` is non-empty and every such
entry has status `signe`; entries with `obligatoire = false` never affect
the result (the value only depends on the sublist of mandatory entries). -/
theorem estCompletementSigne_spec (d : Document) :
    (d.estCompletementSigne = true ↔
      (d.workflowSignature.filter (fun w => w.obligatoire) ≠ [] ∧
        ∀ w ∈ d.workflowSignature, w.obligatoire = true → w.statut = "signe")) ∧
    (∀ d' : Document,
      d'.workflowSignature.filter (fun w => w.obligatoire) =
        d.workflowSignature.filter (fun w => w.obligatoire) →
      d'.estCompletementSigne = d.estCompletementSigne) := by
  constructor
  · unfold Document.estCompletementSigne
    simp only [Bool.and_eq_true, decide_eq_true_eq, beq_iff_eq, List.length_pos]
    constructor
    · rintro ⟨hne, hlen⟩
      refine ⟨hne, ?_⟩
      intro w hw hob
      have hsub := List.filter_sublist (p := fun w => w.statut == "signe")
        (l := d.workflowSignature.filter (fun w => w.obligatoire))
      have heq := hsub.eq_of_length hlen
      have hmem : w ∈ d.workflowSignature.filter (fun w => w.obligatoire) := by
        rw [List.mem_filter]; exact ⟨hw, by simp [hob]⟩
      have := (List.filter_eq_self.mp heq) w hmem
      simpa using this
    · rintro ⟨hne, hall⟩
      refine ⟨hne, ?_⟩
      have : (d.workflowSignature.filter (fun w => w.obligatoire)).filter
          (fun w => w.statut == "signe") =
          d.workflowSignature.filter (fun w => w.obligatoire) := by
        apply List.filter_eq_self.mpr
        intro w hw
        rw [List.mem_filter] at hw
        have := hall w hw.1 (by simpa using hw.2)
        simp [this]
      rw [this]
  · intro d' h
    unfold Document.estCompletementSigne
    simp only [h]

/-- Witness for C7: the observer entry's status does not change the
completeness verdict. -/
theorem estCompletementSigne_spec_witness :
    docW2.estCompletementSigne = docW.estCompletementSigne :=
  (estCompletementSigne_spec docW).2 docW2 (by decide)

/-! ## Claim C8 -/

/-- Claim C8: `peutEtreSigne()` is true iff the status is `en_attente` and
either no `dateExpiration` is set or it is strictly in the future; a
record whose `dateExpiration` equals the current time is not signable. -/
theorem peutEtreSigne_spec (s : SignatureRecord) (now : Nat) :
    (s.peutEtreSigne now = true ↔
      (s.statut = "en_attente" ∧
        (s.dateExpiration = none ∨
          ∃ e, s.dateExpiration = some e ∧ now < e))) ∧
    (s.dateExpiration = some now → s.peutEtreSigne now = false) := by
  constructor
  · unfold SignatureRecord.peutEtreSigne
    rcases hx : s.dateExpiration with _ | e <;>
      simp [hx, Bool.and_eq_true, beq_iff_eq]
  · intro hx
    unfold SignatureRecord.peutEtreSigne
    simp [hx]

/-- Witness for C8 at the boundary: `sigW` expires exactly at time 5 and is
not signable at time 5. -/
theorem peutEtreSigne_spec_witness : sigW.peutEtreSigne 5 = false :=
  (peutEtreSigne_spec sigW 5).2 (by decide)

/-! ## Claim C10 -/

/-- Claim C10: on a pending record, `peutEtreSigne` is the negation of
`estExpire`, and `estExpire` holds exactly when an expiration is set and
has passed (is less than or equal to the current time). -/
theorem peutEtreSigne_estExpire_partition (s : SignatureRecord) (now : Nat) :
    (s.statut = "en_attente" →
      s.peutEtreSigne now = !(s.estExpire now)) ∧
    (s.estExpire now = true ↔ ∃ e, s.dateExpiration = some e ∧ e ≤ now) := by
  constructor
  · intro hst
    unfold SignatureRecord.peutEtreSigne SignatureRecord.estExpire
    rcases hx : s.dateExpiration with _ | e
    · simp [hx, hst]
    · by_cases h : e ≤ now
      · simp [hx, hst, h, show ¬ now < e by omega]
      · simp [hx, hst, h, show now < e by omega]
  · unfold SignatureRecord.estExpire
    rcases hx : s.dateExpiration with _ | e <;> simp [hx]

/-- Witness for C10: at time 7 the pending record `sigW` is expired, hence
not signable. -/
theorem peutEtreSigne_estExpire_partition_witness :
    sigW.peutEtreSigne 7 = !(sigW.estExpire 7) :=
  (peutEtreSigne_estExpire_partition sigW 7).1 (by decide)

/-! ## Lemmas about first-match updates

The webhook reconciliation loop applies, per event entry, a first-match
update whose predicate only reads fields the updates never write.  The
following lemmas isolate that structure. -/

/-- A first-match update is invisible through a projection the update
preserves. -/
theorem updateFirst_map {α β : Type} (p : α → Bool) (f : α → α) (π : α → β)
    (hf : ∀ a, π (f a) = π a) :
    ∀ l : List α, (updateFirst p f l).map π = l.map π
  | [] => rfl
  | x :: xs => by
    unfold updateFirst
    by_cases h : p x
    · simp [h, hf]
    · simp [h, updateFirst_map p f π hf xs]

/-- A reconciliation pass over an empty store does nothing. -/
theorem runUpdates_nil {α ι : Type} (guard : ι → Bool) (p : ι → α → Bool)
    (f : ι → α → α) (is : List ι) : runUpdates guard p f [] is = [] := by
  induction is with
  | nil => rfl
  | cons i is ih =>
    unfold runUpdates at ih ⊢
    rw [List.foldl_cons]
    cases hg : guard i
    · simpa [hg] using ih
    · simpa [hg, updateFirst] using ih

/-- A reconciliation pass is invisible through a projection every update
preserves. -/
theorem runUpdates_map {α β ι : Type} (guard : ι → Bool) (p : ι → α → Bool)
    (f : ι → α → α) (π : α → β) (hf : ∀ i a, π (f i a) = π a)
    (is : List ι) : ∀ l : List α, (runUpdates guard p f l is).map π = l.map π := by
  induction is with
  | nil => intro l; rfl
  | cons i is ih =>
    intro l
    unfold runUpdates at ih ⊢
    rw [List.foldl_cons]
    cases hg : guard i
    · simpa [hg] using ih l
    · simp only [hg, if_true]
      rw [ih (updateFirst (p i) (f i) l), updateFirst_map (p i) (f i) π (hf i) l]

/-- Updaters that overwrite the same fields with input-independent values
absorb earlier updaters under a fold. -/
theorem foldl_upd_agrees {α ι : Type} (f : ι → α → α)
    (Hf : ∀ i j a, f i (f j a) = f i a) (j : ι) :
    ∀ (hs : List ι) (y : α),
      f j (hs.foldl (fun a i => f i a) y) = f j y
  | [], _ => rfl
  | k :: hs, y => by
    simp only [List.foldl_cons]
    rw [foldl_upd_agrees f Hf j hs (f k y), Hf]

/-- Predicates that only read preserved fields are stable under a fold of
updates. -/
theorem foldl_upd_pres {α ι : Type} (p : ι → α → Bool) (f : ι → α → α)
    (Hp : ∀ i j a, p i (f j a) = p i a) (j : ι) :
    ∀ (hs : List ι) (y : α),
      p j (hs.foldl (fun a i => f i a) y) = p j y
  | [], _ => rfl
  | k :: hs, y => by
    simp only [List.foldl_cons]
    rw [foldl_upd_pres p f Hp j hs (f k y), Hp]

/-- Folding constant-writing updates twice equals folding them once. -/
theorem foldl_upd_idem {α ι : Type} (f : ι → α → α)
    (Hf : ∀ i j a, f i (f j a) = f i a) (hs : List ι) (x : α) :
    hs.foldl (fun a i => f i a) (hs.foldl (fun a i => f i a) x) =
      hs.foldl (fun a i => f i a) x := by
  cases hs with
  | nil => rfl
  | cons j hs =>
    simp only [List.foldl_cons]
    rw [foldl_upd_agrees f Hf j hs (f j x), Hf]

/-- Head decomposition of a reconciliation pass: the event entries whose
predicate matches the head element all land on the head, the others carry
on into the tail.  Needs the predicates to be stable under the updates. -/
theorem runUpdates_cons {α ι : Type} (guard : ι → Bool) (p : ι → α → Bool)
    (f : ι → α → α) (Hp : ∀ i j a, p i (f j a) = p i a) :
    ∀ (is : List ι) (x : α) (xs : List α),
      runUpdates guard p f (x :: xs) is =
        (is.filter (fun i => guard i && p i x)).foldl (fun a i => f i a) x ::
          runUpdates guard p f xs (is.filter (fun i => !(guard i && p i x)))
  | [], x, xs => rfl
  | i :: is, x, xs => by
    unfold runUpdates
    simp only [List.foldl_cons, List.filter_cons]
    cases hg : guard i
    · have ih := runUpdates_cons guard p f Hp is x xs
      unfold runUpdates at ih
      simp only [hg, Bool.false_and, Bool.not_false, Bool.false_eq_true,
        if_false, if_true, ite_false, ite_true]
      rw [ih]
      congr 1
      rw [List.foldl_cons]
      simp [hg]
    · cases hp : p i x
      · have ih := runUpdates_cons guard p f Hp is x
          (updateFirst (p i) (f i) xs)
        unfold runUpdates at ih
        simp only [hg, hp, updateFirst, Bool.true_and, Bool.not_false,
          Bool.false_eq_true, Bool.true_eq_false, if_false, if_true,
          ite_false, ite_true]
        rw [ih]
        congr 1
        rw [List.foldl_cons]
        simp [hg]
      · have ih := runUpdates_cons guard p f Hp is (f i x) xs
        unfold runUpdates at ih
        simp only [Hp] at ih
        simp only [hg, hp, updateFirst, Bool.true_and, Bool.not_true,
          Bool.true_eq_false, if_false, if_true, ite_false, ite_true]
        rw [ih, List.foldl_cons]
        simp

/-- A whole reconciliation pass is idempotent when its predicates are
stable under its updates and its updates absorb each other. -/
theorem runUpdates_idem {α ι : Type} (guard : ι → Bool) (p : ι → α → Bool)
    (f : ι → α → α) (Hp : ∀ i j a, p i (f j a) = p i a)
    (Hf : ∀ i j a, f i (f j a) = f i a) :
    ∀ (l : List α) (is : List ι),
      runUpdates guard p f (runUpdates guard p f l is) is =
        runUpdates guard p f l is
  | [], is => by rw [runUpdates_nil, runUpdates_nil]
  | x :: xs, is => by
    rw [runUpdates_cons guard p f Hp is x xs]
    set A := (is.filter (fun i => guard i && p i x)).foldl (fun a i => f i a) x
      with hAdef
    set T := is.filter (fun i => !(guard i && p i x)) with hTdef
    rw [runUpdates_cons guard p f Hp is A (runUpdates guard p f xs T)]
    have hA : ∀ j, p j A = p j x := by
      intro j
      rw [hAdef]
      exact foldl_upd_pres p f Hp j _ x
    have h1 : is.filter (fun j => guard j && p j A) =
        is.filter (fun j => guard j && p j x) :=
      List.filter_congr (fun a _ => by rw [hA])
    have h2 : is.filter (fun j => !(guard j && p j A)) =
        is.filter (fun j => !(guard j && p j x)) :=
      List.filter_congr (fun a _ => by rw [hA])
    rw [h1, h2, ← hTdef]
    have hhead : (is.filter (fun i => guard i && p i x)).foldl
        (fun a i => f i a) A = A := by
      rw [hAdef]
      exact foldl_upd_idem f Hf _ x
    rw [hhead]
    rw [runUpdates_idem guard p f Hp Hf xs T]

/-! ## Instance facts for the signed-event reconciliation -/

/-- The `updateOne` filter of `synchroniserSignature` only reads the
document reference and the provider signer id, which its `$set` never
writes. -/
theorem sigRecMatch_stable (docId : Nat) (i j : EventSignature)
    (a : SignatureRecord) :
    sigRecMatch docId i (sigRecSet j a) = sigRecMatch docId i a := by
  rcases a with ⟨doc, sg, st, ⟨sid, sc⟩, ds, de, oo, mr, cr, dr, ip, ua, h, cu⟩
  rfl

/-- The `$set` of `synchroniserSignature` writes a fixed field set with
values taken from the event entry only, so a later write absorbs an
earlier one. -/
theorem sigRecSet_absorbe (i j : EventSignature) (a : SignatureRecord) :
    sigRecSet i (sigRecSet j a) = sigRecSet i a := by
  rcases a with ⟨doc, sg, st, ⟨sid, sc⟩, ds, de, oo, mr, cr, dr, ip, ua, h, cu⟩
  rfl

/-- The workflow lookup of `synchroniserSignature` only reads the user
reference and email, which its mutation never writes. -/
theorem wfEmailMatch_stable (i j : EventSignature) (w : WorkflowEntry) :
    wfEmailMatch i (wfSet j w) = wfEmailMatch i w := by
  rcases w with ⟨u, ue, r, o, ob, st, ds, c⟩
  rfl

/-- The workflow mutation of `synchroniserSignature` absorbs an earlier
one. -/
theorem wfSet_absorbe (i j : EventSignature) (w : WorkflowEntry) :
    wfSet i (wfSet j w) = wfSet i w := by
  rcases w with ⟨u, ue, r, o, ob, st, ds, c⟩
  rfl

/-! ## Claim C4 -/

/-- Claim C4 (amended): replaying the same "signed" event through
`synchroniserSignature` is idempotent — the second application returns
exactly the state produced by the first — but the reconciliation path
records no history entry at all: neither the signature records' nor the
document's audit trail changes, so "exactly one history entry" must read
"no history entry". -/
theorem synchroniserSignature_idempotente (d : Document)
    (st : List SignatureRecord) (sr : SignatureRequestData) :
    synchroniserSignature (synchroniserSignature d st sr).1
        (synchroniserSignature d st sr).2 sr = synchroniserSignature d st sr ∧
    (synchroniserSignature d st sr).2.map (fun r => r.historique) =
      st.map (fun r => r.historique) ∧
    (synchroniserSignature d st sr).1.historique = d.historique := by
  refine ⟨?_, ?_, rfl⟩
  · rcases d with ⟨did, ti, stt, wf, cu, pr, dl, dsr, h⟩
    simp only [synchroniserSignature]
    rw [runUpdates_idem sigEventGuard wfEmailMatch wfSet wfEmailMatch_stable
      wfSet_absorbe wf sr.signatures]
    rw [runUpdates_idem sigEventGuard (sigRecMatch did) sigRecSet
      (sigRecMatch_stable did) sigRecSet_absorbe st sr.signatures]
  · simp only [synchroniserSignature]
    exact runUpdates_map sigEventGuard (sigRecMatch d.id) sigRecSet
      (fun r => r.historique) (fun i a => rfl) sr.signatures st

/-- Claim C4 counterexample: processing the concrete signed event
`srData1` signs the matching record, yet across a first and a second
application zero history entries exist on it, not one, and the document
audit trail is untouched — refuting "exactly one history entry is
recorded". -/
theorem synchroniserSignature_sans_historique :
    ((synchroniserSignature docW [sigW] srData1).2.map (fun r => r.statut) =
      ["signe"]) ∧
    ((synchroniserSignature (synchroniserSignature docW [sigW] srData1).1
        (synchroniserSignature docW [sigW] srData1).2 srData1).2.map
      (fun r => r.historique.length) = [0]) ∧
    (synchroniserSignature (synchroniserSignature docW [sigW] srData1).1
        (synchroniserSignature docW [sigW] srData1).2 srData1).1.historique =
      docW.historique := by decide

/-! ## Claim C3 -/

/-- Claim C3 counterexample: the webhook reconciliation
`synchroniserSignature` applies an unguarded `$set`, so a record already
in the terminal state `rejete` is overwritten to `signe` by a late
"signed" event — refuting "no operation ever changes a terminal status". -/
theorem synchroniser_ecrase_statut_terminal :
    sigTerminaleRejetee.statut = "rejete" ∧
    (synchroniserSignature docW [sigTerminaleRejetee] srData1).2.map
      (fun r => r.statut) = ["signe"] := by decide

/-- Claim C3 (amended): the local operations are guarded on the current
status — the expiration sweep, local rejection and local signature leave
a record whose status is terminal (`signe`, `rejete`, `expire`,
`annule`) untouched — but the webhook reconciliation functions apply
blind overwrites (see the counterexample). -/
theorem statuts_terminaux_preserves_localement
    (s : SignatureRecord) (doc : Document) (user : User)
    (motif comment commentaire geo ip ua : Option String) (now : Nat)
    (db : DropboxStatut)
    (hterm : s.statut = "signe" ∨ s.statut = "rejete" ∨ s.statut = "expire" ∨
      s.statut = "annule") :
    nettoyerUneSignature now s = s ∧
    (rejeterSignature s doc user motif comment now).sig = s ∧
    (signerDocument s doc user commentaire geo ip ua now db).sig = s := by
  have hne : (s.statut == "en_attente") = false := by
    rcases hterm with h | h | h | h <;> simp [h]
  refine ⟨?_, ?_, ?_⟩
  · unfold nettoyerUneSignature
    simp [hne]
  · unfold rejeterSignature
    by_cases h1 : strTruthy motif
    · by_cases h2 : s.signataire == user.id
      · simp [h1, h2, hne]
      · simp [h1, h2]
    · simp [h1]
  · unfold signerDocument
    have hps : s.peutEtreSigne now = false := by
      unfold SignatureRecord.peutEtreSigne
      simp [hne]
    by_cases h2 : s.signataire == user.id
    · simp [h2, hps]
    · simp [h2]

/-- Witness for the amended C3: the terminal record `sigTerminaleRejetee`
survives the sweep, a rejection attempt and a signature attempt. -/
theorem statuts_terminaux_preserves_localement_witness :
    nettoyerUneSignature 99 sigTerminaleRejetee = sigTerminaleRejetee ∧
    (rejeterSignature sigTerminaleRejetee docW user1 (some "m") none 99).sig =
      sigTerminaleRejetee ∧
    (signerDocument sigTerminaleRejetee docW user1 none none none none 99
      .notSigned).sig = sigTerminaleRejetee :=
  statuts_terminaux_preserves_localement sigTerminaleRejetee docW user1
    (some "m") none none none none none 99 .notSigned (by decide)

/-! ## Claim C2 -/

/-- Claim C2 counterexample: reconciling one `all_signed` event persists
document status `signe` while `estCompletementSigne()` is false on its
workflow (the mandatory entry is still `en_attente`), refuting the
status/derivation invariant for the reconciliation operations. -/
theorem synchroniserDocumentComplet_incoherent :
    (synchroniserAvecDropboxSign storeW evAllSigned 5).documents.map
      (fun d => d.statut) = ["signe"] ∧
    (synchroniserAvecDropboxSign storeW evAllSigned 5).documents.map
      (fun d => d.estCompletementSigne) = [false] := by decide

/-- Claim C2 (amended): after a successful local signature
(`signerDocument` without the Dropbox-error warning path) the persisted
document status equals `signe` iff `estCompletementSigne()` holds; the
webhook reconciliation, by contrast, sets the status from the provider
event alone and does not maintain this biconditional (see the
counterexample). -/
theorem aggStatut_signe_iff (b : Bool) :
    ((if b then "signe" else "partiellement_signe") = "signe") ↔ (b = true) := by
  cases b <;> simp

theorem signerDocument_statut_coherent
    (sig : SignatureRecord) (doc : Document) (user : User)
    (commentaire geo ip ua : Option String) (now : Nat) (db : DropboxStatut)
    (hok : (signerDocument sig doc user commentaire geo ip ua now db).status = 200)
    (hw : (signerDocument sig doc user commentaire geo ip ua now db).warning = false) :
    ((signerDocument sig doc user commentaire geo ip ua now db).doc.statut = "signe" ↔
      (signerDocument sig doc user commentaire geo ip ua now db).doc.estCompletementSigne
        = true) := by
  unfold signerDocument at hok hw ⊢
  by_cases h1 : sig.signataire == user.id
  · by_cases h2 : sig.peutEtreSigne now
    · cases db with
      | indisponible => simp [h1, h2] at hw
      | signedAt t =>
        simp only [h1, h2, Bool.not_true, Bool.false_eq_true, if_false,
          ite_false, ite_true]
        exact aggStatut_signe_iff _
      | notSigned =>
        simp only [h1, h2, Bool.not_true, Bool.false_eq_true, if_false,
          ite_false, ite_true]
        exact aggStatut_signe_iff _
    · simp [h1, h2] at hok
  · simp [h1] at hok

/-- Witness for the amended C2: `user1` signs `sigW` on `docW` at time 3;
the resulting document status verdict matches `estCompletementSigne()`. -/
theorem signerDocument_statut_coherent_witness :
    ((signerDocument sigW docW user1 none none none none 3 .notSigned).doc.statut
        = "signe" ↔
      (signerDocument sigW docW user1 none none none none 3
        .notSigned).doc.estCompletementSigne = true) :=
  signerDocument_statut_coherent sigW docW user1 none none none none 3
    .notSigned (by decide) (by decide)

/-! ## Claim C9 -/

/-- Claim C9: with a rejection reason supplied, `rejeterSignature`
succeeds exactly when the caller is the record's designated signer and
the record status is exactly `en_attente`; it never reads
`dateExpiration` (a lapsed pending record can still be rejected); on
success it stores status `rejete`, the reason, the comment and the
rejection timestamp and appends a history entry; on actor mismatch or
wrong status it rejects without mutating the record or the document. -/
theorem rejeterSignature_spec (sig : SignatureRecord) (doc : Document)
    (user : User) (motif comment : Option String) (now : Nat)
    (hmot : strTruthy motif = true) :
    ((rejeterSignature sig doc user motif comment now).status = 200 ↔
      (sig.signataire = user.id ∧ sig.statut = "en_attente")) ∧
    ((rejeterSignature sig doc user motif comment now).status = 200 →
      (rejeterSignature sig doc user motif comment now).sig =
        ({ sig with
            statut := "rejete",
            motifRejet := motif,
            commentaireRejet := comment,
            dateRejet := some now } : SignatureRecord).ajouterHistorique "rejet"
          (some user.id) (some "Signature rejetée")) ∧
    ((rejeterSignature sig doc user motif comment now).status ≠ 200 →
      (rejeterSignature sig doc user motif comment now).sig = sig ∧
      (rejeterSignature sig doc user motif comment now).doc = doc) ∧
    (∀ exp : Option Nat,
      (rejeterSignature { sig with dateExpiration := exp } doc user motif
        comment now).status =
        (rejeterSignature sig doc user motif comment now).status) := by
  unfold rejeterSignature
  by_cases h1 : sig.signataire = user.id
  · by_cases h2 : sig.statut = "en_attente"
    · simp [hmot, h1, h2, SignatureRecord.ajouterHistorique]
    · simp [hmot, h1, h2]
  · simp [hmot, h1]

/-- Witness for C9: `user1` rejects the pending record `sigW` with a
reason; the success criterion evaluates as stated. -/
theorem rejeterSignature_spec_witness :
    (rejeterSignature sigW docW user1 (some "montant incorrect") none 4).status
        = 200 ↔
      (sigW.signataire = user1.id ∧ sigW.statut = "en_attente") :=
  (rejeterSignature_spec sigW docW user1 (some "montant incorrect") none 4
    (by decide)).1

/-! ## Claim C5 -/

/-- When every workflow entry resolves to a user, the signers are
pairwise distinct and the store holds no record colliding with the new
ones, the creation loop of `envoyerPourSignature` appends exactly one
pending record per workflow entry, in order. -/
theorem creerSignaturesLocales_ok (docId : Nat) (dl : Option Nat) (uid : Nat) :
    ∀ (ws : List WorkflowEntry) (store : List SignatureRecord),
      (∀ w ∈ ws, w.utilisateur.isSome) →
      (ws.map (fun w => w.utilisateur)).Nodup →
      (∀ w ∈ ws, ∀ r ∈ store,
        ¬(r.document = docId ∧ some r.signataire = w.utilisateur)) →
      creerSignaturesLocales docId dl uid ws store =
        .ok (store ++ ws.map (fun w =>
          nouvelleSignatureRecord docId dl uid w (w.utilisateur.getD 0)))
  | [], store, _, _, _ => by simp [creerSignaturesLocales]
  | w :: ws, store, hsome, hnd, hdis => by
    obtain ⟨u, hu⟩ := Option.isSome_iff_exists.mp (hsome w (List.mem_cons_self w ws))
    have step1 : creerSignaturesLocales docId dl uid (w :: ws) store =
        (match insertSignature store (nouvelleSignatureRecord docId dl uid w u) with
         | .error _ => .error store
         | .ok store' => creerSignaturesLocales docId dl uid ws store') := by
      simp only [creerSignaturesLocales, hu]
    have hins : insertSignature store (nouvelleSignatureRecord docId dl uid w u) =
        .ok (store ++ [nouvelleSignatureRecord docId dl uid w u]) := by
      unfold insertSignature
      have hany : (store.any (fun r =>
          r.document == (nouvelleSignatureRecord docId dl uid w u).document &&
            r.signataire == (nouvelleSignatureRecord docId dl uid w u).signataire))
            = false := by
        cases hx : store.any (fun r =>
          r.document == (nouvelleSignatureRecord docId dl uid w u).document &&
            r.signataire == (nouvelleSignatureRecord docId dl uid w u).signataire)
        · rfl
        · obtain ⟨r, hr, hp⟩ := List.any_eq_true.mp hx
          have h := hdis w (List.mem_cons_self w ws) r hr
          rw [hu] at h
          simp only [nouvelleSignatureRecord, Bool.and_eq_true, beq_iff_eq] at hp
          exact absurd ⟨hp.1, by rw [hp.2]⟩ h
      rw [hany]
      simp
    have htail := creerSignaturesLocales_ok docId dl uid ws
      (store ++ [nouvelleSignatureRecord docId dl uid w u])
      (fun w' hw' => hsome w' (List.mem_cons_of_mem w hw'))
      ((List.nodup_cons.mp hnd).2)
      (by
        intro w' hw' r hr
        rcases List.mem_append.mp hr with hr | hr
        · exact hdis w' (List.mem_cons_of_mem w hw') r hr
        · have hrq := List.mem_singleton.mp hr
          subst hrq
          rintro ⟨_, hsg⟩
          have hnot : (some u : Option Nat) ∉ ws.map (fun w => w.utilisateur) := by
            simpa [hu] using (List.nodup_cons.mp hnd).1
          have hmem : w'.utilisateur ∈ ws.map (fun w => w.utilisateur) :=
            List.mem_map_of_mem (fun w => w.utilisateur) hw'
          rw [← hsg] at hmem
          exact hnot hmem)
    rw [step1, hins]
    show creerSignaturesLocales docId dl uid ws
      (store ++ [nouvelleSignatureRecord docId dl uid w u]) = _
    rw [htail]
    simp [hu]

/-- Claim C5: dispatching a draft document with a non-empty, fully
resolved, duplicate-free workflow succeeds identically for every gateway
outcome (success, failure result, thrown error, or no API key): the
pending records are created with order and expiration copied, the
document becomes `en_attente_signature` and one history entry is
appended. -/
theorem envoyerPourSignature_resiliente (doc : Document)
    (sigStore : List SignatureRecord) (user : User) (gateway : GatewayResult)
    (apiKeyPresent : Bool)
    (hperm : doc.peutEtreModifiePar user = true)
    (hbrouillon : doc.statut = "brouillon")
    (hwf : doc.workflowSignature ≠ [])
    (hres : ∀ w ∈ doc.workflowSignature, w.utilisateur.isSome)
    (hnd : (doc.workflowSignature.map (fun w => w.utilisateur)).Nodup)
    (hvierge : sigStore.filter (fun s => s.document == doc.id) = []) :
    envoyerPourSignature doc sigStore user gateway apiKeyPresent =
      ⟨200,
       ({ doc with statut := "en_attente_signature" } : Document).ajouterHistorique
         "signature" (some user.id)
         (some ("Document envoyé pour signature à " ++
           toString doc.workflowSignature.length ++ " signataire(s)")),
       sigStore ++ doc.workflowSignature.map (fun w =>
         nouvelleSignatureRecord doc.id doc.dateLimiteSignature user.id w
           (w.utilisateur.getD 0))⟩ := by
  have hempty : doc.workflowSignature.isEmpty = false := by
    cases h : doc.workflowSignature
    · exact absurd h hwf
    · rfl
  have hany : doc.workflowSignature.any (fun w => w.utilisateur.isNone) = false := by
    cases hx : doc.workflowSignature.any (fun w => w.utilisateur.isNone)
    · rfl
    · obtain ⟨w, hw, hwn⟩ := List.any_eq_true.mp hx
      have hs := hres w hw
      rw [Option.isNone_iff_eq_none.mp hwn] at hs
      exact absurd hs (by simp)
  have hcree := creerSignaturesLocales_ok doc.id doc.dateLimiteSignature user.id
    doc.workflowSignature sigStore hres hnd
    (by
      intro w hw r hr
      rintro ⟨hdoc, _⟩
      have hf : ∀ r ∈ sigStore, ¬((r.document == doc.id) = true) := by
        intro r' hr' hb
        have : r' ∈ sigStore.filter (fun s => s.document == doc.id) :=
          List.mem_filter.mpr ⟨hr', hb⟩
        rw [hvierge] at this
        exact absurd this (List.not_mem_nil r')
      exact hf r hr (by simp [hdoc]))
  unfold envoyerPourSignature
  simp only [hperm, hbrouillon, hempty, hany, Bool.not_true, Bool.not_false,
    Bool.false_eq_true, Bool.true_eq_false, beq_self_eq_true, if_false, if_true,
    ite_false, ite_true]
  rw [hvierge]
  simp only [List.isEmpty_nil, ite_true, if_true]
  rw [hcree]

/-- Witness for C5: dispatching the concrete draft `docBrouillon` with an
empty store while the gateway throws. -/
theorem envoyerPourSignature_resiliente_witness :
    envoyerPourSignature docBrouillon [] userCreateur .exception true =
      ⟨200,
       ({ docBrouillon with statut := "en_attente_signature" } : Document).ajouterHistorique
         "signature" (some userCreateur.id)
         (some ("Document envoyé pour signature à " ++
           toString docBrouillon.workflowSignature.length ++ " signataire(s)")),
       [] ++ docBrouillon.workflowSignature.map (fun w =>
         nouvelleSignatureRecord docBrouillon.id docBrouillon.dateLimiteSignature
           userCreateur.id w (w.utilisateur.getD 0))⟩ :=
  envoyerPourSignature_resiliente docBrouillon [] userCreateur .exception true
    (by decide) (by decide) (by decide) (by decide) (by decide) (by decide)

/-! ## Claim C6 -/

/-- Claim C6: re-invoking dispatch when records for the document already
exist leaves the record store untouched (no duplicates are created), and
inserting a second record for the same (document, signataire) pair is
refused by the unique index with a constraint violation. -/
theorem signatures_uniques :
    (∀ (doc : Document) (sigStore : List SignatureRecord) (user : User)
        (gateway : GatewayResult) (apiKeyPresent : Bool),
      sigStore.filter (fun s => s.document == doc.id) ≠ [] →
      (envoyerPourSignature doc sigStore user gateway apiKeyPresent).sigStore =
        sigStore) ∧
    (∀ (store : List SignatureRecord) (s r : SignatureRecord),
      r ∈ store → r.document = s.document → r.signataire = s.signataire →
      insertSignature store s = .error "E11000 duplicate key") := by
  constructor
  · intro doc sigStore user gw ak hex
    have hie : (sigStore.filter (fun s => s.document == doc.id)).isEmpty = false := by
      cases h : sigStore.filter (fun s => s.document == doc.id)
      · exact absurd h hex
      · rfl
    unfold envoyerPourSignature
    by_cases h1 : doc.peutEtreModifiePar user
    · by_cases h2 : doc.workflowSignature.isEmpty
      · simp [h1, h2]
      · by_cases h3 : doc.workflowSignature.any (fun w => w.utilisateur.isNone)
        · simp [h1, h2, h3]
        · by_cases h4 : doc.statut = "brouillon"
          · simp [h1, h2, h3, h4, hie]
          · simp [h1, h2, h3, h4]
    · simp [h1]
  · intro store s r hr hd hsg
    unfold insertSignature
    have hb : (store.any (fun x =>
        x.document == s.document && x.signataire == s.signataire)) = true :=
      List.any_eq_true.mpr ⟨r, hr, by simp [hd, hsg]⟩
    rw [hb]
    simp

/-- Witness for C6: a second dispatch sees the existing record of
document 8 and creates nothing, and inserting a record that collides with
`sigW` on (document, signataire) is refused. -/
theorem signatures_uniques_witness :
    (envoyerPourSignature docBrouillon [sigDoc8] userCreateur .exception
      true).sigStore = [sigDoc8] ∧
    insertSignature [sigW] (nouvelleSignatureRecord 7 none 9 wfEnAttente 1) =
      .error "E11000 duplicate key" :=
  ⟨signatures_uniques.1 docBrouillon [sigDoc8] userCreateur .exception true
    (by decide),
   signatures_uniques.2 [sigW] (nouvelleSignatureRecord 7 none 9 wfEnAttente 1)
    sigW (by decide) (by decide) (by decide)⟩

/-! ## Claim C1 -/

/-- Claim C1 (code bug): the shipped webhook handler hardcodes
`isValidSignature = true` and never calls `verifierSignatureWebhook`, so
the concrete inbound event `evDataNonAuth` — on which every
authenticity verification fails (its envelope has no `event_time` and no
`event_hash`, whatever hash function, parser and API key are used) — is
answered `200 success` and fully processed: the stored document moves
from `en_attente_signature` to `signe` instead of the event being
rejected `Unauthorized` with no store access. -/
theorem webhook_traite_evenement_non_authentifie :
    verifierSignatureWebhook sha0 parse0 (some "api-key") rawReqNonAuth = false ∧
    (webhookDropboxSign ⟨some evDataNonAuth⟩ storeW 5).1 =
      ⟨200, true⟩ ∧
    (webhookDropboxSign ⟨some evDataNonAuth⟩ storeW 5).2.documents.map
      (fun d => d.statut) = ["signe"] ∧
    storeW.documents.map (fun d => d.statut) = ["en_attente_signature"] := by
  decide

end BackendDocusign
